import Mathlib

/-!
BreakGuard core — formal model

A shallow embedding of the break-enforcement state machine, the work timer,
the lock-screen authentication flow and the persistence layer of the
BreakGuard application, together with theorems settling the specified
behavioural claims.

The definitions are translated directly from the Python sources:
* `src/state_manager.py`   — `AppState`, `StateManager`
* `src/work_timer.py`      — `BreakGuardApp` (tick, snooze, start, restore)
* `src/lock_screen_pyqt.py`— `LockScreen` (TOTP / face verification, lockout)
* `src/face_verification.py` — `FaceVerification.verify_face`

UI-only effects (widget layout, animations, logging, tray messages) are not
modelled; every branch that changes program state or produces an externally
observable decision is.
-/

namespace BreakGuard

/-! ## state_manager.py -/

/-- Model of `AppState` enumeration (state_manager.py, lines 17-24). -/
inductive AppState where
  | IDLE
  | WORKING
  | WARNING
  | LOCKED
  | PAUSED
  | SETUP
deriving DecidableEq, Repr

/-- Model of `StateManager.VALID_TRANSITIONS` (state_manager.py, lines 36-43),
with each edge list in source order. -/
def VALID_TRANSITIONS : AppState → List AppState
  | .IDLE => [.WORKING, .SETUP]
  | .WORKING => [.WARNING, .PAUSED, .IDLE]
  | .WARNING => [.LOCKED, .WORKING, .IDLE]
  | .LOCKED => [.IDLE, .WORKING]
  | .PAUSED => [.WORKING, .IDLE]
  | .SETUP => [.IDLE, .WORKING]

/-- A registered state callback.  `cid` identifies the Python callable;
`raises` records whether invoking it raises an exception (the body of the
callable is opaque to the state machine, only this effect is visible to
`_trigger_callbacks`). -/
structure Callback where
  cid : Nat
  raises : Bool
deriving DecidableEq, Repr

/-- The mutable fields of a `StateManager` instance
(state_manager.py, lines 45-67). -/
structure SMState where
  current : AppState
  previous : Option AppState
  callbacks : AppState → List Callback
  autoPersist : Bool
  additionalData : List (String × Int)

/-- Model of `StateManager.can_transition_to` (state_manager.py, lines 79-88):
membership in the edge list of the current state. -/
def can_transition_to (s : SMState) (newState : AppState) : Bool :=
  decide (newState ∈ VALID_TRANSITIONS s.current)

/-- The JSON document written by `StateManager.save_state`
(state_manager.py, lines 217-222); the timestamp is environment input and
not modelled. -/
structure PersistedState where
  current : AppState
  previous : Option AppState
  additionalData : List (String × Int)

/-- Model of `StateManager._trigger_callbacks` (state_manager.py, lines 145-155):
invoke each callback in registration order; the `try/except` around each
call means a raising callback is logged and iteration continues, so every
callback id is reached regardless of the `raises` flags. -/
def trigger_callbacks : List Callback → List Nat
  | [] => []
  | c :: rest => c.cid :: trigger_callbacks rest

/-- Everything observable about one `transition_to` call: the raised
`StateTransitionError` (carrying the from/to pair) if any, the state of the
manager afterwards, the ids of the callbacks that were invoked (in order),
and the persistence write if one was triggered. -/
structure TransitionResult where
  error : Option (AppState × AppState)
  state : SMState
  invoked : List Nat
  persisted : Option PersistedState

/-- Model of `StateManager.transition_to` (state_manager.py, lines 90-121).
The guard raises before any mutation; on success the manager sets
`previous_state`/`current_state`, saves state when `auto_persist` is on,
then triggers the callbacks registered for the new state. -/
def transition_to (s : SMState) (newState : AppState) (force : Bool) : TransitionResult :=
  if !force && !(can_transition_to s newState) then
    { error := some (s.current, newState), state := s, invoked := [], persisted := none }
  else
    let s1 : SMState := { s with previous := some s.current, current := newState }
    let saved : Option PersistedState :=
      if s1.autoPersist then
        some { current := s1.current, previous := s1.previous,
               additionalData := s1.additionalData }
      else none
    { error := none, state := s1,
      invoked := trigger_callbacks (s1.callbacks newState), persisted := saved }

/-- The content found at the state-file path when `load_state` runs:
either the file is unreadable / not valid JSON (`malformed`, every such
exception is caught), or it parses to a dictionary from which the three
keys are read with `.get`. -/
inductive FileContent where
  | malformed
  | parsed (currentName : Option String) (previousName : Option String)
           (additional : Option (List (String × Int)))

/-- The `AppState[name]` enum lookup used by `load_state`; an unknown name
raises `KeyError` in Python, modelled as `none`. -/
def appStateOfName : String → Option AppState
  | "IDLE" => some .IDLE
  | "WORKING" => some .WORKING
  | "WARNING" => some .WARNING
  | "LOCKED" => some .LOCKED
  | "PAUSED" => some .PAUSED
  | "SETUP" => some .SETUP
  | _ => none

/-- Model of `StateManager.load_state` (state_manager.py, lines 234-266).
Absent file: return `False`.  Any exception (bad JSON, unknown enum name)
is caught by the surrounding `try/except` and `False` is returned; the
mutations already performed before the exception are kept.  The Python
truthiness guards (`if current_state_name:`) skip `None` and the empty
string. -/
def load_state (s : SMState) (file : Option FileContent) : Bool × SMState :=
  match file with
  | none => (false, s)
  | some .malformed => (false, s)
  | some (.parsed curName prevName add) =>
    let step1 : Option SMState :=
      match curName with
      | none => some s
      | some nm =>
        if nm = "" then some s
        else
          match appStateOfName nm with
          | some st => some { s with current := st }
          | none => none
    match step1 with
    | none => (false, s)
    | some s1 =>
      let step2 : Option SMState :=
        match prevName with
        | none => some s1
        | some nm =>
          if nm = "" then some s1
          else
            match appStateOfName nm with
            | some st => some { s1 with previous := some st }
            | none => none
      match step2 with
      | none => (false, s1)
      | some s2 => (true, { s2 with additionalData := add.getD [] })

/-! ## lock_screen_pyqt.py -/

/-- The mutable fields of a `LockScreen` instance that the verification and
lockout logic reads or writes (lock_screen_pyqt.py, lines 82-88):
`attempts_remaining` (initialised to the literal 5), `lockout_count`,
whether the OTP boxes / unlock button / scan button are enabled, the
pending `QTimer.singleShot` re-enable delay if one has been scheduled by
`_disable_inputs`, the break countdown, and the `auto_unlock_after_break`
configuration flag read by `_update_time`. -/
structure LSState where
  attemptsRemaining : Int
  lockoutCount : Nat
  inputsEnabled : Bool
  pendingEnableDelay : Option Nat
  breakRemaining : Int
  autoUnlock : Bool
deriving DecidableEq, Repr

/-- Model of `LockScreen.__init__` state initialisation (lock_screen_pyqt.py,
lines 82-88): 5 attempts, no lockout so far, inputs enabled,
`break_remaining_seconds = break_duration_minutes * 60`. -/
def initLockScreen (breakDurationMinutes : Int) (autoUnlock : Bool) : LSState :=
  { attemptsRemaining := 5, lockoutCount := 0, inputsEnabled := true,
    pendingEnableDelay := none, breakRemaining := breakDurationMinutes * 60,
    autoUnlock := autoUnlock }

/-- The escalation table `lockout_times = [60, 300, 900]`
(lock_screen_pyqt.py, line 454). -/
def lockout_times : List Nat := [60, 300, 900]

/-- Model of `lockout_times[min(self.lockout_count - 1, len(lockout_times) - 1)]`
(lock_screen_pyqt.py, line 455), as a function of the already-incremented
lockout count. -/
def lockoutDuration (lockoutCount : Nat) : Nat :=
  lockout_times.getD (min (lockoutCount - 1) (lockout_times.length - 1)) 0

/-- Model of `LockScreen._disable_inputs` (lock_screen_pyqt.py, lines 625-633):
disables the OTP boxes, unlock button and scan button, and schedules
`_enable_inputs` via `QTimer.singleShot(seconds * 1000, ...)` — a one-shot
scheduled callback, recorded here as the pending delay. -/
def disable_inputs (s : LSState) (seconds : Nat) : LSState :=
  { s with inputsEnabled := false, pendingEnableDelay := some seconds }

/-- Model of `LockScreen._enable_inputs` (lock_screen_pyqt.py, lines 635-642): the
scheduled callback re-enables all inputs and resets
`attempts_remaining = 5`. -/
def enable_inputs (s : LSState) : LSState :=
  { s with inputsEnabled := true, pendingEnableDelay := none,
           attemptsRemaining := 5 }

/-- Model of `TOTPAuth.verify_code` (totp_auth.py, lines 223-245): with no stored
secret the result is `False`; otherwise the code is handed to the
cryptographic primitive `pyotp.TOTP(secret).verify(code, valid_window=1)`
(abstracted as `totpOracle`, since it is an external library call over the
wall clock); any exception it raises is caught and yields `False` — the
function never pre-validates the code's characters or length. -/
def verify_code (secret : Option String) (totpOracle : String → Bool)
    (code : String) : Bool :=
  match secret with
  | none => false
  | some _ => totpOracle code

/-- Observable outcome of one `_verify_totp` invocation. -/
inductive TotpResult where
  | promptIncomplete
  | unlocked
  | invalidCode
  | lockoutTriggered (seconds : Nat)
deriving DecidableEq, Repr

/-- Model of `LockScreen._verify_totp` (lock_screen_pyqt.py, lines 418-475).
Returns the outcome, the lock-screen state afterwards, and whether
`totp.verify_code` was invoked.  A code of the wrong length returns
immediately ("Please enter all 6 digits") touching nothing.  Otherwise the
inputs are disabled for the duration of the check; on success the unlock is
scheduled; on failure the inputs are re-enabled, `attempts_remaining` is
decremented, and when it reaches 0 the lockout fires: `lockout_count` is
incremented, the duration is read from `lockout_times`, and
`_disable_inputs(duration)` is called.  Nothing in this function consults
`pendingEnableDelay` or `inputsEnabled`. -/
def verify_totp (s : LSState) (code : String) (secret : Option String)
    (totpOracle : String → Bool) : TotpResult × LSState × Bool :=
  if code.length ≠ 6 then (.promptIncomplete, s, false)
  else
    let busy : LSState := { s with inputsEnabled := false }
    if verify_code secret totpOracle code then (.unlocked, busy, true)
    else
      let failed : LSState :=
        { busy with inputsEnabled := true,
                    attemptsRemaining := s.attemptsRemaining - 1 }
      if failed.attemptsRemaining ≤ 0 then
        let lc := s.lockoutCount + 1
        let d := lockoutDuration lc
        (.lockoutTriggered d, disable_inputs { failed with lockoutCount := lc } d, true)
      else (.invalidCode, failed, true)

/-- Observable outcome of one `_verify_face` invocation. -/
inductive FaceResult where
  | noFrame
  | unlocked
  | tooManyAttempts
  | notRecognized
deriving DecidableEq, Repr

/-- Model of `LockScreen._verify_face` (lock_screen_pyqt.py, lines 513-541).
No camera frame: bail out.  A recognised face unlocks.  A failure
decrements `attempts_remaining` and, when it reaches 0, calls
`_disable_inputs(60)` — a fixed 60 seconds, without touching
`lockout_count` and without consulting the escalation table. -/
def lockscreen_verify_face (s : LSState) (frameAvailable : Bool)
    (faceOk : Bool) : FaceResult × LSState :=
  if !frameAvailable then (.noFrame, s)
  else if faceOk then (.unlocked, s)
  else
    let failed : LSState := { s with attemptsRemaining := s.attemptsRemaining - 1 }
    if failed.attemptsRemaining ≤ 0 then (.tooManyAttempts, disable_inputs failed 60)
    else (.notRecognized, failed)

/-- Model of `LockScreen._update_time` (lock_screen_pyqt.py, lines 687-702), fired
every second by `time_timer`: while the break countdown is positive it is
decremented; once it has reached zero, if the `auto_unlock_after_break`
configuration flag is set, `_unlock()` runs (emitting the `unlocked` signal
and closing the screen — the returned flag).  The countdown branch reads no
authentication state at all. -/
def update_time (s : LSState) : LSState × Bool :=
  if s.breakRemaining > 0 then
    ({ s with breakRemaining := s.breakRemaining - 1 }, false)
  else if s.autoUnlock then (s, true)
  else (s, false)

/-! ## work_timer.py -/

/-- The timer fields of a `BreakGuardApp` instance
(work_timer.py, lines 40-43). -/
structure WTState where
  timeRemaining : Int
  snoozeCount : Nat
  isPaused : Bool
  isLocked : Bool
deriving DecidableEq, Repr

/-- Model of `BreakGuardApp._on_timer_tick` (work_timer.py, lines 164-190): a no-op
while paused or locked; otherwise decrements `time_remaining_seconds` and,
when it has reached 0, `_trigger_lock()` runs (the returned flag), setting
`is_locked` and stopping the tick timer.  The periodic persistence write
and the tray-tooltip update on this path have no effect on the timer
state. -/
def on_timer_tick (s : WTState) : WTState × Bool :=
  if s.isPaused || s.isLocked then (s, false)
  else
    let s1 : WTState := { s with timeRemaining := s.timeRemaining - 1 }
    if s1.timeRemaining ≤ 0 then ({ s1 with isLocked := true }, true)
    else (s1, false)

/-- Runs `k` consecutive one-second ticks. -/
def tickN (s : WTState) : Nat → WTState
  | 0 => s
  | n + 1 => (on_timer_tick (tickN s n)).1

/-- Model of `BreakGuardApp._on_snooze` (work_timer.py, lines 224-246):
unconditionally increments `snooze_count`, adds the hard-coded `5 * 60`
seconds to the remaining time, and restarts the single-shot warning timer
(with delay `(time_remaining - warning_seconds) * 1000` ms, the second
component) exactly when the new remaining time exceeds the warning
threshold.  The function contains no limit check and raises nothing. -/
def on_snooze (s : WTState) (warningSeconds : Int) : WTState × Option Int :=
  let s1 : WTState :=
    { s with snoozeCount := s.snoozeCount + 1,
             timeRemaining := s.timeRemaining + 5 * 60 }
  if s1.timeRemaining > warningSeconds then
    (s1, some ((s1.timeRemaining - warningSeconds) * 1000))
  else (s1, none)

/-- Model of `can_snooze = self.snooze_count < max_snooze` computed by
`BreakGuardApp._show_warning` (work_timer.py, line 205) and passed to the
warning dialog, which disables its snooze button when this is false — the
only place the snooze cap is enforced. -/
def can_snooze (snoozeCount maxSnooze : Nat) : Bool :=
  decide (snoozeCount < maxSnooze)

/-- The persisted snapshot as seen by `BreakGuardApp.__init__`: the saved
state name, the two values read back through `get_data`, and the wall-clock
age of the snapshot's timestamp at the moment of loading. -/
structure Snapshot where
  currentName : String
  timeRemainingSaved : Option Int
  snoozeSaved : Option Nat
  ageSeconds : Nat
deriving DecidableEq, Repr

/-- The crash-recovery restore in `BreakGuardApp.__init__`
(work_timer.py, lines 40-55): `time_remaining_seconds` and `snooze_count`
start at 0; when a snapshot loaded, each saved value that is not `None`
overwrites the corresponding field.  Neither the saved state name nor the
snapshot's timestamp is consulted. -/
def init_restore : Option Snapshot → Int × Nat
  | none => (0, 0)
  | some snap => (snap.timeRemainingSaved.getD 0, snap.snoozeSaved.getD 0)

/-- Model of `BreakGuardApp.start` (work_timer.py, lines 309-329): unconditionally
resets `time_remaining_seconds` to the configured full work interval and
`snooze_count` to 0, clears the pause flag, and starts ticking. -/
def app_start (workIntervalSeconds : Int) : WTState :=
  { timeRemaining := workIntervalSeconds, snoozeCount := 0,
    isPaused := false, isLocked := false }

/-- The warning scheduling in `BreakGuardApp.start` (work_timer.py,
lines 322-325): a single-shot delay of
`(time_remaining - warning_seconds) * 1000` ms when
`0 < warning_seconds < time_remaining`, nothing otherwise. -/
def start_warning_delay (workIntervalSeconds warningSeconds : Int) : Option Int :=
  if 0 < warningSeconds ∧ warningSeconds < workIntervalSeconds then
    some ((workIntervalSeconds - warningSeconds) * 1000)
  else none

/-! ## face_verification.py -/

/-- Model of `FaceVerification.verify_face` (face_verification.py, lines 199-229).
The frame, the Haar-cascade detector, the feature extraction and the
`np.corrcoef` similarity are external numeric primitives (camera data and
floating-point array code), abstracted as parameters; the registered
encodings, the empty-registry fail-open branch, the no-face branch and the
strict `similarity > threshold` comparison against every registered face
are the logic under verification. -/
def verify_face {Frame Loc Feat : Type} (registeredFaces : List Feat)
    (detect_face : Frame → Option Loc) (extract_features : Frame → Loc → Feat)
    (similarity : Feat → Feat → ℚ) (threshold : ℚ) (frame : Frame) : Bool :=
  if registeredFaces.isEmpty then true
  else
    match detect_face frame with
    | none => false
    | some loc =>
      registeredFaces.any fun r =>
        decide (similarity (extract_features frame loc) r > threshold)

end BreakGuard

namespace BreakGuard

/-! ## Theorems about the state machine (claims C1, C8, C9) -/

/-- Helper: invoking the callbacks reaches every registered callback id in
registration order, whatever the `raises` flags say. -/
theorem trigger_callbacks_eq_map (cbs : List Callback) :
    trigger_callbacks cbs = cbs.map Callback.cid := by
  induction cbs with
  | nil => rfl
  | cons c rest ih => simp [trigger_callbacks, ih]

/-- C1: for every current state `S` and every target `T` outside `S`'s edge
set, `transition_to(T, force=False)` fails with a `StateTransitionError`
carrying the from/to pair and performs no mutation whatsoever (the whole
manager state — current, previous, callback registry and additional data —
is returned untouched, no callback runs, nothing is persisted); for every
`T` inside the edge set the same call succeeds. -/
theorem transition_to_guard (s : SMState) (T : AppState) :
    (T ∉ VALID_TRANSITIONS s.current →
      transition_to s T false =
        { error := some (s.current, T), state := s, invoked := [], persisted := none }) ∧
    (T ∈ VALID_TRANSITIONS s.current → (transition_to s T false).error = none) := by
  constructor
  · intro h
    simp [transition_to, can_transition_to, h]
  · intro h
    simp [transition_to, can_transition_to, h]

/-- Witness for C1 at a concrete illegal edge (IDLE → LOCKED) and a
concrete legal edge (IDLE → WORKING). -/
theorem transition_to_guard_witness :
    (AppState.LOCKED ∉ VALID_TRANSITIONS AppState.IDLE ∧
      transition_to
        { current := .IDLE, previous := none, callbacks := fun _ => [],
          autoPersist := true, additionalData := [] } .LOCKED false =
        { error := some (.IDLE, .LOCKED),
          state := { current := .IDLE, previous := none, callbacks := fun _ => [],
                     autoPersist := true, additionalData := [] },
          invoked := [], persisted := none }) ∧
    (AppState.WORKING ∈ VALID_TRANSITIONS AppState.IDLE ∧
      (transition_to
        { current := .IDLE, previous := none, callbacks := fun _ => [],
          autoPersist := true, additionalData := [] } .WORKING false).error = none) :=
  ⟨⟨by decide, (transition_to_guard _ .LOCKED).1 (by decide)⟩,
   ⟨by decide, (transition_to_guard _ .WORKING).2 (by decide)⟩⟩

/-- C8: for every legal `transition_to(T)` from state `S`: afterwards
`previous_state = S` and `current_state = T`, every callback registered for
`T` is invoked in registration order (a raising callback is caught and does
not abort the transition nor prevent the remaining callbacks — the invoked
list is the full registered list whatever the `raises` flags), and a
persistence write is triggered exactly when auto-persist is enabled. -/
theorem transition_to_success (s : SMState) (T : AppState)
    (h : T ∈ VALID_TRANSITIONS s.current) :
    (transition_to s T false).error = none ∧
    (transition_to s T false).state.previous = some s.current ∧
    (transition_to s T false).state.current = T ∧
    (transition_to s T false).invoked = (s.callbacks T).map Callback.cid ∧
    ((transition_to s T false).persisted.isSome ↔ s.autoPersist = true) := by
  simp only [transition_to, can_transition_to, decide_eq_true_eq]
  rw [if_neg (by simp [h])]
  refine ⟨rfl, rfl, rfl, trigger_callbacks_eq_map _, ?_⟩
  by_cases hp : s.autoPersist <;> simp [hp]

/-- Witness for C8: a legal WORKING → WARNING transition with two
registered callbacks, the first of which raises; both still run, in
registration order, and the auto-persist write happens. -/
theorem transition_to_success_witness :
    (AppState.WARNING ∈ VALID_TRANSITIONS AppState.WORKING) ∧
    ((transition_to
        { current := .WORKING, previous := some .IDLE,
          callbacks := fun st => if st = .WARNING then [⟨1, true⟩, ⟨2, false⟩] else [],
          autoPersist := true, additionalData := [("snooze_count", 0)] }
        .WARNING false).error = none ∧
      (transition_to
        { current := .WORKING, previous := some .IDLE,
          callbacks := fun st => if st = .WARNING then [⟨1, true⟩, ⟨2, false⟩] else [],
          autoPersist := true, additionalData := [("snooze_count", 0)] }
        .WARNING false).state.previous = some .WORKING ∧
      (transition_to
        { current := .WORKING, previous := some .IDLE,
          callbacks := fun st => if st = .WARNING then [⟨1, true⟩, ⟨2, false⟩] else [],
          autoPersist := true, additionalData := [("snooze_count", 0)] }
        .WARNING false).state.current = .WARNING ∧
      (transition_to
        { current := .WORKING, previous := some .IDLE,
          callbacks := fun st => if st = .WARNING then [⟨1, true⟩, ⟨2, false⟩] else [],
          autoPersist := true, additionalData := [("snooze_count", 0)] }
        .WARNING false).invoked =
        ((if AppState.WARNING = AppState.WARNING then
            ([⟨1, true⟩, ⟨2, false⟩] : List Callback) else []).map Callback.cid) ∧
      ((transition_to
        { current := .WORKING, previous := some .IDLE,
          callbacks := fun st => if st = .WARNING then [⟨1, true⟩, ⟨2, false⟩] else [],
          autoPersist := true, additionalData := [("snooze_count", 0)] }
        .WARNING false).persisted.isSome ↔ True)) := by
  refine ⟨by decide, ?_⟩
  have h := transition_to_success
    { current := .WORKING, previous := some .IDLE,
      callbacks := fun st => if st = .WARNING then [⟨1, true⟩, ⟨2, false⟩] else [],
      autoPersist := true, additionalData := [("snooze_count", 0)] }
    .WARNING (by decide)
  exact ⟨h.1, h.2.1, h.2.2.1, h.2.2.2.1, by simpa using h.2.2.2.2⟩

/-- C9 counterexample: the claim says an unknown persisted state tag makes
`load_state` "fail closed to IDLE (the in-memory state is IDLE
afterwards)".  On the code, the `KeyError` from `AppState[name]` is caught
and the manager keeps whatever state it already had: loading a file whose
`current_state` is the unknown tag "BOGUS" into a manager currently in
WORKING leaves it in WORKING, not IDLE. -/
theorem load_state_unknown_tag_counterexample :
    (load_state
      { current := .WORKING, previous := some .IDLE, callbacks := fun _ => [],
        autoPersist := true, additionalData := [] }
      (some (.parsed (some "BOGUS") none none))).1 = false ∧
    (load_state
      { current := .WORKING, previous := some .IDLE, callbacks := fun _ => [],
        autoPersist := true, additionalData := [] }
      (some (.parsed (some "BOGUS") none none))).2.current = .WORKING ∧
    ¬ (load_state
      { current := .WORKING, previous := some .IDLE, callbacks := fun _ => [],
        autoPersist := true, additionalData := [] }
      (some (.parsed (some "BOGUS") none none))).2.current = .IDLE := by
  refine ⟨rfl, rfl, by simp [load_state, appStateOfName]⟩

/-- C9 (amended): `load_state` reports failure when the state file is
absent; a file with an unknown `current_state` tag never raises — the
`KeyError` is caught, load reports failure and the in-memory state is left
unchanged (hence IDLE exactly when the manager was still in its initial
IDLE state); every disk I/O error or malformed JSON is likewise caught and
treated as "no snapshot available". -/
theorem load_state_fails_closed (s : SMState) (nm : String) (p : Option String)
    (a : Option (List (String × Int)))
    (hnm : appStateOfName nm = none) (hne : nm ≠ "") :
    load_state s none = (false, s) ∧
    load_state s (some .malformed) = (false, s) ∧
    load_state s (some (.parsed (some nm) p a)) = (false, s) := by
  refine ⟨rfl, rfl, ?_⟩
  simp [load_state, hnm, hne]

/-- Witness for C9 (amended) at the unknown tag "NOT_A_STATE" loaded into a
freshly constructed (IDLE) manager. -/
theorem load_state_fails_closed_witness :
    (appStateOfName "NOT_A_STATE" = none ∧ "NOT_A_STATE" ≠ "") ∧
    (load_state
        { current := .IDLE, previous := none, callbacks := fun _ => [],
          autoPersist := true, additionalData := [] } none =
      (false, { current := .IDLE, previous := none, callbacks := fun _ => [],
                autoPersist := true, additionalData := [] }) ∧
    load_state
        { current := .IDLE, previous := none, callbacks := fun _ => [],
          autoPersist := true, additionalData := [] } (some .malformed) =
      (false, { current := .IDLE, previous := none, callbacks := fun _ => [],
                autoPersist := true, additionalData := [] }) ∧
    load_state
        { current := .IDLE, previous := none, callbacks := fun _ => [],
          autoPersist := true, additionalData := [] }
        (some (.parsed (some "NOT_A_STATE") none none)) =
      (false, { current := .IDLE, previous := none, callbacks := fun _ => [],
                autoPersist := true, additionalData := [] })) :=
  ⟨⟨rfl, by decide⟩,
   load_state_fails_closed _ "NOT_A_STATE" none none rfl (by decide)⟩

/-! ## Theorems about the lock screen (claims C2, C4, C5, C6) -/

/-- One failed face-verification attempt (camera frame available, face not
recognised), used only to run the C2 counterexample scenario. -/
def faceFailStep (s : LSState) : LSState :=
  (lockscreen_verify_face s true false).2

/-- C2 counterexample: the claim says every maximal run of consecutive
failed verification attempts that reaches the threshold increments
`lockout_count` and draws the duration from the `[60s, 300s, 900s]` table.
Running five consecutive failed FACE verifications from a fresh lock screen
triggers a lockout whose duration is the fixed 60 seconds, but
`lockout_count` is still 0 afterwards, not the 1 the claim requires — the
face path never touches `lockout_count` nor the table, so a second
face-failure round also disables for 60s instead of the claimed 300s. -/
theorem face_lockout_counterexample :
    (faceFailStep (faceFailStep (faceFailStep (faceFailStep
        (faceFailStep (initLockScreen 5 false)))))).lockoutCount = 0 ∧
    ¬ (faceFailStep (faceFailStep (faceFailStep (faceFailStep
        (faceFailStep (initLockScreen 5 false)))))).lockoutCount = 1 ∧
    (faceFailStep (faceFailStep (faceFailStep (faceFailStep
        (faceFailStep (initLockScreen 5 false)))))).pendingEnableDelay = some 60 ∧
    (faceFailStep (faceFailStep (faceFailStep (faceFailStep
        (faceFailStep (initLockScreen 5 false)))))).inputsEnabled = false := by
  decide

/-- C2 (amended): the escalating lockout applies to the TOTP path only, and
the threshold is the hard-coded initial `attempts_remaining = 5`, not a
configuration value.  When a failed `_verify_totp` drops
`attempts_remaining` to 0, `lockout_count` is incremented and the inputs
are disabled for `lockout_times[min(lockout_count - 1, 2)]` seconds —
60s for the first lockout, 300s for the second, 900s for the third and
every later one — and the scheduled `_enable_inputs` callback resets the
attempt counter to 5 for the next round.  (Face-verification failures
instead disable inputs for a fixed 60 seconds without touching
`lockout_count`.) -/
theorem totp_lockout_escalation (s : LSState) (code : String)
    (secret : Option String) (totpOracle : String → Bool)
    (h6 : code.length = 6)
    (hfail : verify_code secret totpOracle code = false)
    (hlast : s.attemptsRemaining = 1) :
    verify_totp s code secret totpOracle =
      (.lockoutTriggered (lockoutDuration (s.lockoutCount + 1)),
       disable_inputs
         { s with inputsEnabled := true, attemptsRemaining := 0,
                  lockoutCount := s.lockoutCount + 1 }
         (lockoutDuration (s.lockoutCount + 1)), true) ∧
    (enable_inputs (verify_totp s code secret totpOracle).2.1).attemptsRemaining = 5 ∧
    lockoutDuration 1 = 60 ∧ lockoutDuration 2 = 300 ∧
    lockoutDuration 3 = 900 ∧ lockoutDuration 4 = 900 ∧ lockoutDuration 9 = 900 := by
  have hmain : verify_totp s code secret totpOracle =
      (.lockoutTriggered (lockoutDuration (s.lockoutCount + 1)),
       disable_inputs
         { s with inputsEnabled := true, attemptsRemaining := 0,
                  lockoutCount := s.lockoutCount + 1 }
         (lockoutDuration (s.lockoutCount + 1)), true) := by
    simp [verify_totp, h6, hfail, hlast, disable_inputs]
  exact ⟨hmain, by rw [hmain]; rfl, rfl, rfl, rfl, rfl, rfl⟩

/-- Witness for C2 (amended): a second-round lockout — one attempt left
after one earlier lockout — with a wrong 6-digit code escalates to 300
seconds. -/
theorem totp_lockout_escalation_witness :
    ("000000".length = 6 ∧
      verify_code (some "SECRET") (fun _ => false) "000000" = false ∧
      ({ attemptsRemaining := 1, lockoutCount := 1, inputsEnabled := true,
         pendingEnableDelay := none, breakRemaining := 300,
         autoUnlock := false } : LSState).attemptsRemaining = 1) ∧
    verify_totp
        { attemptsRemaining := 1, lockoutCount := 1, inputsEnabled := true,
          pendingEnableDelay := none, breakRemaining := 300, autoUnlock := false }
        "000000" (some "SECRET") (fun _ => false) =
      (.lockoutTriggered (lockoutDuration 2),
       disable_inputs
         { attemptsRemaining := 0, lockoutCount := 2, inputsEnabled := true,
           pendingEnableDelay := none, breakRemaining := 300, autoUnlock := false }
         (lockoutDuration 2), true) ∧
    lockoutDuration 2 = 300 :=
  ⟨⟨by decide, rfl, rfl⟩,
   (totp_lockout_escalation _ "000000" (some "SECRET") (fun _ => false)
      (by decide) rfl rfl).1,
   rfl⟩

/-- C4: whenever the break countdown has reached zero and the
`auto_unlock_after_break` flag is set, the next `_update_time` tick calls
`_unlock` — emitting the `unlocked` signal and closing the screen — with no
TOTP or face verification involved and regardless of the rest of the state:
`s` ranges over every combination of `attempts_remaining`, `lockout_count`
and input-disable status, none of which this path reads. -/
theorem auto_unlock_after_break (s : LSState)
    (h0 : s.breakRemaining = 0) (hA : s.autoUnlock = true) :
    (update_time s).2 = true := by
  simp [update_time, h0, hA]

/-- Witness for C4: the break countdown hit zero while a 900-second failure
lockout is active and no attempts remain; the tick still unlocks. -/
theorem auto_unlock_after_break_witness :
    (({ attemptsRemaining := 0, lockoutCount := 3, inputsEnabled := false,
        pendingEnableDelay := some 900, breakRemaining := 0,
        autoUnlock := true } : LSState).breakRemaining = 0 ∧
      ({ attemptsRemaining := 0, lockoutCount := 3, inputsEnabled := false,
         pendingEnableDelay := some 900, breakRemaining := 0,
         autoUnlock := true } : LSState).autoUnlock = true) ∧
    (update_time
      { attemptsRemaining := 0, lockoutCount := 3, inputsEnabled := false,
        pendingEnableDelay := some 900, breakRemaining := 0,
        autoUnlock := true }).2 = true :=
  ⟨⟨rfl, rfl⟩,
   auto_unlock_after_break
     { attemptsRemaining := 0, lockoutCount := 3, inputsEnabled := false,
       pendingEnableDelay := some 900, breakRemaining := 0,
       autoUnlock := true } rfl rfl⟩

/-- C5 counterexample: the claim says every verification attempt made while
a lockout is active fails immediately with `LockedOut` carrying the
remaining seconds, without the TOTP code being checked.  On the code,
`_verify_totp` contains no lockout check at all (the lockout only disables
the input widgets, and `_disable_inputs` enforces it through a scheduled
`QTimer.singleShot` callback rather than a `locked_until` timestamp): an
invocation during an active 60-second lockout with a correct code invokes
`totp.verify_code` and unlocks. -/
theorem lockout_not_lazily_checked_counterexample :
    (verify_totp
      { attemptsRemaining := 0, lockoutCount := 1, inputsEnabled := false,
        pendingEnableDelay := some 60, breakRemaining := 290, autoUnlock := false }
      "123456" (some "SECRET") (fun c => c = "123456")).1 = .unlocked ∧
    (verify_totp
      { attemptsRemaining := 0, lockoutCount := 1, inputsEnabled := false,
        pendingEnableDelay := some 60, breakRemaining := 290, autoUnlock := false }
      "123456" (some "SECRET") (fun c => c = "123456")).2.2 = true ∧
    ¬ (verify_totp
      { attemptsRemaining := 0, lockoutCount := 1, inputsEnabled := false,
        pendingEnableDelay := some 60, breakRemaining := 290, autoUnlock := false }
      "123456" (some "SECRET") (fun c => c = "123456")).1 = .lockoutTriggered 60 := by
  refine ⟨rfl, rfl, by decide⟩

/-- C5 (amended): during a lockout no attempt can be submitted because
`_disable_inputs` disables the input widgets, and the lockout is
implemented as a one-shot scheduled callback — `_disable_inputs(d)` turns
the inputs off and schedules `_enable_inputs` after exactly `d` seconds,
which re-enables them and resets the attempt counter to 5 — not as a
wall-clock `locked_until` timestamp: the verification routine itself
performs no lockout check, its outcome and its use of `totp.verify_code`
being independent of the pending-enable timer and of the widget-enable
flag. -/
theorem lockout_is_scheduled_callback (s : LSState) (d : Nat) (code : String)
    (secret : Option String) (totpOracle : String → Bool)
    (t t' : Option Nat) (b b' : Bool) :
    (disable_inputs s d).inputsEnabled = false ∧
    (disable_inputs s d).pendingEnableDelay = some d ∧
    (enable_inputs s).inputsEnabled = true ∧
    (enable_inputs s).attemptsRemaining = 5 ∧
    (verify_totp { s with pendingEnableDelay := t, inputsEnabled := b }
        code secret totpOracle).1 =
      (verify_totp { s with pendingEnableDelay := t', inputsEnabled := b' }
        code secret totpOracle).1 ∧
    (verify_totp { s with pendingEnableDelay := t, inputsEnabled := b }
        code secret totpOracle).2.2 =
      (verify_totp { s with pendingEnableDelay := t', inputsEnabled := b' }
        code secret totpOracle).2.2 := by
  refine ⟨rfl, rfl, rfl, rfl, ?_, ?_⟩ <;>
  · simp only [verify_totp]
    by_cases h6 : code.length = 6
    · by_cases hok : verify_code secret totpOracle code
      · simp [h6, hok]
      · by_cases hatt : s.attemptsRemaining - 1 ≤ 0
        · simp [h6, hok, hatt]
        · simp [h6, hok, hatt]
    · simp [h6]

/-- C6 counterexample: the claim says a malformed code's rejection is
counted as a failed attempt toward the lockout threshold.  On the code, a
wrong-length code makes `_verify_totp` return at the "Please enter all 6
digits" prompt before anything else: with the 5-character code "12345" the
attempt counter stays at 5 (the claim requires 4) and `totp.verify_code`
is never invoked. -/
theorem malformed_code_not_counted_counterexample :
    verify_totp (initLockScreen 5 false) "12345" (some "SECRET") (fun _ => false) =
      (.promptIncomplete, initLockScreen 5 false, false) ∧
    (verify_totp (initLockScreen 5 false) "12345" (some "SECRET")
        (fun _ => false)).2.1.attemptsRemaining = 5 ∧
    ¬ (verify_totp (initLockScreen 5 false) "12345" (some "SECRET")
        (fun _ => false)).2.1.attemptsRemaining = 4 := by
  refine ⟨by decide, rfl, by decide⟩

/-- C6 (amended): a code of the wrong length is rejected before
`totp.verify_code` is reached and is NOT counted as a failed attempt (the
whole state is untouched); a 6-character code — digits or not — always
reaches `totp.verify_code` (which never raises and simply fails to match
non-digit input), and when that check fails the attempt counter is
decremented. -/
theorem malformed_code_handling (s : LSState) (code : String)
    (secret : Option String) (totpOracle : String → Bool) :
    (code.length ≠ 6 →
      verify_totp s code secret totpOracle = (.promptIncomplete, s, false)) ∧
    (code.length = 6 →
      (verify_totp s code secret totpOracle).2.2 = true) ∧
    (code.length = 6 → verify_code secret totpOracle code = false →
      (verify_totp s code secret totpOracle).2.1.attemptsRemaining =
        s.attemptsRemaining - 1) := by
  refine ⟨fun h => by simp [verify_totp, h], fun h6 => ?_, fun h6 hfail => ?_⟩
  · by_cases hok : verify_code secret totpOracle code
    · simp [verify_totp, h6, hok]
    · by_cases hatt : s.attemptsRemaining - 1 ≤ 0 <;>
        simp [verify_totp, h6, hok, hatt]
  · by_cases hatt : s.attemptsRemaining - 1 ≤ 0 <;>
      simp [verify_totp, h6, hfail, hatt, disable_inputs]

/-- Witness for C6 (amended): the 5-character code "12345" is rejected
untouched without reaching the check, while the 6-character non-digit code
"abc123" reaches `totp.verify_code`, fails, and costs an attempt. -/
theorem malformed_code_handling_witness :
    ("12345".length ≠ 6 ∧
      verify_totp (initLockScreen 5 false) "12345" (some "SECRET") (fun _ => false) =
        (.promptIncomplete, initLockScreen 5 false, false)) ∧
    ("abc123".length = 6 ∧
      (verify_totp (initLockScreen 5 false) "abc123" (some "SECRET")
          (fun _ => false)).2.2 = true ∧
      (verify_totp (initLockScreen 5 false) "abc123" (some "SECRET")
          (fun _ => false)).2.1.attemptsRemaining = 5 - 1) :=
  ⟨⟨by decide,
    (malformed_code_handling (initLockScreen 5 false) "12345" (some "SECRET")
      (fun _ => false)).1 (by decide)⟩,
   ⟨by decide,
    (malformed_code_handling (initLockScreen 5 false) "abc123" (some "SECRET")
      (fun _ => false)).2.1 (by decide),
    (malformed_code_handling (initLockScreen 5 false) "abc123" (some "SECRET")
      (fun _ => false)).2.2 (by decide) rfl⟩⟩

/-! ## Theorems about the work timer (claims C3, C7) -/

/-- Helper: while the countdown has not yet expired, `k` ticks of a running
(unpaused, unlocked) timer just subtract `k` seconds. -/
theorem tickN_running (s : WTState) (hP : s.isPaused = false)
    (hL : s.isLocked = false) :
    ∀ k : Nat, (k : Int) < s.timeRemaining →
      tickN s k = { s with timeRemaining := s.timeRemaining - k } := by
  intro k
  induction k with
  | zero => intro _; simp [tickN]
  | succ n ih =>
    intro h
    have hn : (n : Int) < s.timeRemaining := by push_cast at h ⊢; omega
    have hcond : ¬ s.timeRemaining ≤ (n : Int) + 1 := by push_cast at h; omega
    have harith : s.timeRemaining - (n : Int) - 1 = s.timeRemaining - ((n + 1 : Nat) : Int) := by
      push_cast
      ring
    rw [tickN, ih hn]
    simp [on_timer_tick, hP, hL, hcond, harith]

/-- Helper: a running timer with a positive countdown becomes locked after
exactly `time_remaining` ticks. -/
theorem tickN_locks (s : WTState) (hP : s.isPaused = false)
    (hL : s.isLocked = false) (hw : 0 < s.timeRemaining) :
    (tickN s s.timeRemaining.toNat).isLocked = true := by
  obtain ⟨m, hm⟩ : ∃ m, s.timeRemaining.toNat = m + 1 :=
    ⟨s.timeRemaining.toNat - 1, by omega⟩
  have hmlt : (m : Int) < s.timeRemaining := by omega
  have h1 : s.timeRemaining - (m : Int) = 1 := by omega
  rw [hm, tickN, tickN_running s hP hL m hmlt]
  simp [on_timer_tick, hP, hL, h1]

/-- C3 counterexample: the claim says a persisted snapshot with
`current_state=WORKING`, `time_remaining=0` and a 10-minute-old timestamp
leads, on start, to an almost-immediate lock.  On the code, `__init__`
restores the saved values verbatim — the restore is identical whether the
snapshot is 600 seconds old or brand new, no elapsed time is added — and
`start()` then resets `time_remaining_seconds` to the full 3600-second work
interval: the first ticks do not lock, and after 5 ticks 3595 seconds still
remain — a fresh full-length session. -/
theorem crash_recovery_counterexample :
    init_restore (some { currentName := "WORKING", timeRemainingSaved := some 0,
                         snoozeSaved := some 0, ageSeconds := 600 }) = (0, 0) ∧
    init_restore (some { currentName := "WORKING", timeRemainingSaved := some 0,
                         snoozeSaved := some 0, ageSeconds := 600 }) =
      init_restore (some { currentName := "WORKING", timeRemainingSaved := some 0,
                           snoozeSaved := some 0, ageSeconds := 0 }) ∧
    (app_start 3600).timeRemaining = 3600 ∧
    (tickN (app_start 3600) 1).isLocked = false ∧
    (tickN (app_start 3600) 5).isLocked = false ∧
    (tickN (app_start 3600) 5).timeRemaining = 3595 := by
  decide

/-- C3 (amended): on application start the saved `time_remaining_seconds`
and `snooze_count` are restored into memory, but the snapshot's timestamp
is ignored — the restore is the same whatever the snapshot's age, so no
wall-clock elapsed time is ever added — and `start()` unconditionally
resets the session to the full work interval with a zero snooze count; the
lock callback then fires only after the full `work_interval_seconds` ticks
(no earlier tick locks), so a stale WORKING snapshot yields a fresh
full-length session rather than an immediate lock. -/
theorem crash_recovery_resets_to_full_interval (snap : Snapshot) (a a' : Nat)
    (w : Int) (k : Nat) (hk : (k : Int) < w) (hw : 0 < w) :
    init_restore (some { snap with ageSeconds := a }) =
      init_restore (some { snap with ageSeconds := a' }) ∧
    (app_start w).timeRemaining = w ∧
    (app_start w).snoozeCount = 0 ∧
    (tickN (app_start w) k).isLocked = false ∧
    (tickN (app_start w) k).timeRemaining = w - k ∧
    (tickN (app_start w) w.toNat).isLocked = true := by
  have h1 := tickN_running (app_start w) rfl rfl k hk
  exact ⟨rfl, rfl, rfl, by rw [h1]; rfl, by rw [h1]; rfl,
    tickN_locks (app_start w) rfl rfl hw⟩

/-- Witness for C3 (amended) at the 10-minute-old WORKING snapshot from the
spec's scenario and the default 60-minute work interval, checked 5 ticks
in. -/
theorem crash_recovery_resets_witness :
    ((5 : Int) < 3600 ∧ (0 : Int) < 3600) ∧
    (init_restore (some { currentName := "WORKING", timeRemainingSaved := some 0,
                          snoozeSaved := some 0, ageSeconds := 600 }) =
      init_restore (some { currentName := "WORKING", timeRemainingSaved := some 0,
                           snoozeSaved := some 0, ageSeconds := 0 }) ∧
    (app_start 3600).timeRemaining = 3600 ∧
    (app_start 3600).snoozeCount = 0 ∧
    (tickN (app_start 3600) 5).isLocked = false ∧
    (tickN (app_start 3600) 5).timeRemaining = 3600 - 5 ∧
    (tickN (app_start 3600) (3600 : Int).toNat).isLocked = true) :=
  ⟨⟨by decide, by decide⟩,
   crash_recovery_resets_to_full_interval
     { currentName := "WORKING", timeRemainingSaved := some 0,
       snoozeSaved := some 0, ageSeconds := 600 }
     600 0 3600 5 (by decide) (by decide)⟩

/-- C7 counterexample: with the default `max_snooze_count = 1` and one
snooze already used, the claim says the next snooze call fails with
`SnoozeLimitReached` and leaves `time_remaining` and `snooze_count`
unchanged.  On the code, `_on_snooze` performs no limit check: invoked in
that situation it increments `snooze_count` to 2 and adds 300 seconds
anyway (the cap lives solely in the warning dialog's disabled button, and
no `SnoozeLimitReached` error exists anywhere in the repository). -/
theorem snooze_cap_counterexample :
    can_snooze 1 1 = false ∧
    (on_snooze { timeRemaining := 600, snoozeCount := 1, isPaused := false,
                 isLocked := false } 300).1.snoozeCount = 2 ∧
    ¬ (on_snooze { timeRemaining := 600, snoozeCount := 1, isPaused := false,
                   isLocked := false } 300).1.snoozeCount = 1 ∧
    (on_snooze { timeRemaining := 600, snoozeCount := 1, isPaused := false,
                 isLocked := false } 300).1.timeRemaining = 900 ∧
    ¬ (on_snooze { timeRemaining := 600, snoozeCount := 1, isPaused := false,
                   isLocked := false } 300).1.timeRemaining = 600 := by
  decide

/-- C7 (amended): every invocation of the snooze handler adds exactly 300
seconds (the hard-coded 5 minutes) to the remaining time and increments
`snooze_count` by one, and it restarts the single-shot warning timer
exactly when the new remaining time exceeds the warning threshold; the
snooze cap is enforced only upstream, by `_show_warning` computing
`can_snooze = snooze_count < max_snooze` and the dialog disabling its
snooze button when that is false — the handler itself never fails. -/
theorem snooze_adds_and_counts (s : WTState) (warningSeconds : Int)
    (maxSnooze : Nat) :
    (on_snooze s warningSeconds).1.timeRemaining = s.timeRemaining + 300 ∧
    (on_snooze s warningSeconds).1.snoozeCount = s.snoozeCount + 1 ∧
    ((on_snooze s warningSeconds).2.isSome ↔
      s.timeRemaining + 300 > warningSeconds) ∧
    (can_snooze s.snoozeCount maxSnooze = true ↔ s.snoozeCount < maxSnooze) := by
  have h1 : (on_snooze s warningSeconds).1 =
      { s with snoozeCount := s.snoozeCount + 1,
               timeRemaining := s.timeRemaining + 5 * 60 } := by
    simp only [on_snooze]
    split <;> rfl
  refine ⟨?_, ?_, ?_, by simp [can_snooze]⟩
  · rw [h1]
    show s.timeRemaining + 5 * 60 = s.timeRemaining + 300
    norm_num
  · rw [h1]
  · by_cases h : warningSeconds < s.timeRemaining + 5 * 60
    · have h' : warningSeconds < s.timeRemaining + 300 := by omega
      simp [on_snooze, h, h']
    · have h' : ¬ warningSeconds < s.timeRemaining + 300 := by omega
      simp [on_snooze, h, h']

/-! ## Theorems about face verification (claim C10) -/

/-- C10: `verify_face` returns `True` for every input frame whenever no
face encodings are registered (the fail-open branch); when at least one
face is registered it returns `True` exactly when a face is detected in
the frame and the similarity of its features to some registered encoding
strictly exceeds the threshold. -/
theorem verify_face_fail_open {Frame Loc Feat : Type}
    (registeredFaces : List Feat) (detect_face : Frame → Option Loc)
    (extract_features : Frame → Loc → Feat) (similarity : Feat → Feat → ℚ)
    (threshold : ℚ) (frame : Frame) :
    (registeredFaces = [] →
      verify_face registeredFaces detect_face extract_features similarity
        threshold frame = true) ∧
    (registeredFaces ≠ [] →
      (verify_face registeredFaces detect_face extract_features similarity
          threshold frame = true ↔
        ∃ loc, detect_face frame = some loc ∧
          ∃ r ∈ registeredFaces,
            similarity (extract_features frame loc) r > threshold)) := by
  constructor
  · intro h; subst h; rfl
  · intro h
    have hne : registeredFaces.isEmpty = false := by
      simpa [List.isEmpty_iff] using h
    cases hd : detect_face frame with
    | none => simp [verify_face, hne, hd]
    | some loc => simp [verify_face, hne, hd, List.any_eq_true]

/-- Witness for C10: an empty registry passes any frame, and a one-face
registry passes exactly when the (here constant-1) similarity beats the
threshold 0 on the detected face. -/
theorem verify_face_fail_open_witness :
    (([] : List Nat) = [] ∧
      verify_face ([] : List Nat) (fun _ : Unit => some ())
        (fun _ _ => (0 : Nat)) (fun _ _ => (1 : ℚ)) 0 () = true) ∧
    (([0] : List Nat) ≠ [] ∧
      (verify_face ([0] : List Nat) (fun _ : Unit => some ())
          (fun _ _ => (0 : Nat)) (fun _ _ => (1 : ℚ)) 0 () = true ↔
        ∃ loc, (fun _ : Unit => some ()) () = some loc ∧
          ∃ r ∈ ([0] : List Nat),
            (fun _ _ => (1 : ℚ)) ((fun _ _ => (0 : Nat)) () loc) r > 0)) :=
  ⟨⟨rfl,
    (verify_face_fail_open ([] : List Nat) (fun _ : Unit => some ())
      (fun _ _ => (0 : Nat)) (fun _ _ => (1 : ℚ)) 0 ()).1 rfl⟩,
   ⟨by simp,
    (verify_face_fail_open ([0] : List Nat) (fun _ : Unit => some ())
      (fun _ _ => (0 : Nat)) (fun _ _ => (1 : ℚ)) 0 ()).2 (by simp)⟩⟩

end BreakGuard
